import Mathlib

/-!
Verification of the resilience / streaming-relay layer of the copilot-api
proxy: failure classification, circuit breaker, exponential backoff with
jitter, the bounded retry loop for non-streaming calls, and the per-chunk
stream relay.

The definitions below are a shallow embedding of the TypeScript source:

* `src/lib/error-handler.ts` — circuit-breaker state and the pure helpers
  `isNonCountingError`, `recordSuccess`, `recordFailure`, `calculateBackoff`,
  `shouldRetry`;
* `src/services/copilot/chat-completions/service.ts` — the retrying
  executor `chatCompletions`;
* the streaming service (`chatCompletionsStream` with its `onError`
  callback) and the SSE relay loop (`processStream`) of the streaming
  route handler.

JavaScript numbers are modelled as `ℚ` where real arithmetic matters
(backoff delays) and as `Nat` where the source only compares and stores
them (status codes, timestamps).  JavaScript truthiness of strings and
numbers (`""` and `0` are falsy) is transcribed explicitly at each use
site.  The module-level mutable variables of `error-handler.ts` become the
explicit state record `CBState` threaded through every operation, and
`Date.now()` becomes an explicit `now` argument.  The upstream request
thunk of the executor becomes a function from the invocation index to that
invocation's outcome, so a theorem can count exactly how many upstream
attempts a call makes.
-/

namespace CopilotApi

/-- Model of `RetryOptions` from `error-handler.ts`. -/
structure RetryOptions where
  maxRetries : Nat
  initialDelayMs : ℚ
  backoffFactor : ℚ
  maxDelayMs : ℚ
  retryableStatusCodes : List Nat
  nonCountingErrors : List String

/-- `DEFAULT_RETRY_OPTIONS` from `error-handler.ts`. -/
def DEFAULT_RETRY_OPTIONS : RetryOptions :=
  { maxRetries := 3
    initialDelayMs := 1000
    backoffFactor := 2
    maxDelayMs := 10000
    retryableStatusCodes := [429, 500, 502, 503, 504]
    nonCountingErrors :=
      ["aborted", "abort", "operation was aborted", "user aborted",
       "canceled", "cancelled", "timeout", "socket hang up", "network error"] }

/-- `FAILURE_THRESHOLD` from `error-handler.ts`. -/
def FAILURE_THRESHOLD : Nat := 5

/-- `MAX_RECENT_FAILURES` from `error-handler.ts`. -/
def MAX_RECENT_FAILURES : Nat := 20

/-- `RESET_TIMEOUT` (ms) from `error-handler.ts`. -/
def RESET_TIMEOUT : Nat := 60000

/-- One element of the `recentFailures` buffer. -/
structure FailureRecord where
  timestamp : Nat
  statusCode : Option Nat
  message : String
deriving DecidableEq, Repr

/-- The module-level mutable circuit-breaker state of `error-handler.ts`.
`circuitResetTimer` models whether the `setTimeout` handle is currently
non-null (a pending auto-reset is scheduled). -/
structure CBState where
  consecutiveFailures : Nat
  circuitOpen : Bool
  lastCircuitOpenTime : Nat
  circuitResetTimer : Bool
  recentFailures : List FailureRecord
deriving DecidableEq, Repr

/-- The initial values of the module-level variables. -/
def cbInitialState : CBState :=
  { consecutiveFailures := 0
    circuitOpen := false
    lastCircuitOpenTime := 0
    circuitResetTimer := false
    recentFailures := [] }

/-- `isCircuitOpen` from `error-handler.ts`. -/
def isCircuitOpen (s : CBState) : Bool := s.circuitOpen

/-- `recordSuccess` from `error-handler.ts`: reset the counter and, if the
circuit was open, close it and clear the pending reset timer. -/
def recordSuccess (s : CBState) : CBState :=
  let s1 := { s with consecutiveFailures := 0 }
  if s1.circuitOpen then
    { s1 with circuitOpen := false, circuitResetTimer := false }
  else s1

/-- ASCII model of JavaScript `String.prototype.toLowerCase` on one
character (all messages and patterns in the source are ASCII). -/
def lowerChar (c : Char) : Char :=
  if c.isUpper then Char.ofNat (c.toNat + 32) else c

/-- Lower-case a string, character by character. -/
def lowerData (l : List Char) : List Char := l.map lowerChar

/-- Model of JavaScript `String.prototype.includes`: `needle` occurs as a
contiguous substring of `hay`. -/
def hasInfix (hay needle : List Char) : Bool :=
  needle.isPrefixOf hay ||
    match hay with
    | [] => false
    | _ :: t => hasInfix t needle

/-- `isNonCountingError` from `error-handler.ts`:
empty message is falsy (`if (!errorMessage) return false`), otherwise the
lower-cased message is tested for each lower-cased pattern as a substring
(`options.nonCountingErrors.some(term => normalizedError.includes(term.toLowerCase()))`). -/
def isNonCountingError (errorMessage : String) (options : RetryOptions) : Bool :=
  if errorMessage == "" then false
  else
    let normalizedError := lowerData errorMessage.data
    options.nonCountingErrors.any fun term => hasInfix normalizedError (lowerData term.data)

/-- The guard `errorMessage && isNonCountingError(errorMessage, options)`
as used in `recordFailure` and `shouldRetry` (with `errorMessage` an
optional string; `undefined` and `""` are falsy). -/
def nonCountingGuard (errorMessage : Option String) (options : RetryOptions) : Bool :=
  match errorMessage with
  | some m => !(m == "") && isNonCountingError m options
  | none => false

/-- `errorMessage || "Unknown error"` — the message stored into
`recentFailures` by `recordFailure`. -/
def storedMessage (errorMessage : Option String) : String :=
  match errorMessage with
  | some m => if m == "" then "Unknown error" else m
  | none => "Unknown error"

/-- `recordFailure` from `error-handler.ts`: unshift the failure onto
`recentFailures`, pop the oldest entry beyond capacity, return early for
non-counting messages, otherwise increment `consecutiveFailures` and open
the circuit (recording the time and scheduling the reset timer) when the
threshold is reached while closed. -/
def recordFailure (s : CBState) (now : Nat) (statusCode : Option Nat)
    (errorMessage : Option String) (options : RetryOptions) : CBState :=
  let pushed : List FailureRecord :=
    { timestamp := now, statusCode := statusCode, message := storedMessage errorMessage }
      :: s.recentFailures
  let kept := if pushed.length > MAX_RECENT_FAILURES then pushed.dropLast else pushed
  let s1 := { s with recentFailures := kept }
  if nonCountingGuard errorMessage options then s1
  else
    let s2 := { s1 with consecutiveFailures := s1.consecutiveFailures + 1 }
    if s2.consecutiveFailures ≥ FAILURE_THRESHOLD && !s2.circuitOpen then
      { s2 with circuitOpen := true, lastCircuitOpenTime := now, circuitResetTimer := true }
    else s2

/-- `min(options.maxDelayMs, options.initialDelayMs * options.backoffFactor ** attempt)` —
the capped exponential base used by `calculateBackoff`. -/
def baseDelay (attempt : Nat) (options : RetryOptions) : ℚ :=
  min options.maxDelayMs (options.initialDelayMs * options.backoffFactor ^ attempt)

/-- `calculateBackoff` from `error-handler.ts`; `rand` models the
`Math.random()` draw in `[0, 1)`. -/
def calculateBackoff (attempt : Nat) (options : RetryOptions) (rand : ℚ) : ℚ :=
  let base := baseDelay attempt options
  let jitter := base * (2 / 10) * (rand * 2 - 1)
  base + jitter

/-- `shouldRetry` from `error-handler.ts`: non-counting messages are never
retried; a 500 whose message contains the literal string
`"Unknown streaming error"` is always retried; otherwise retry iff the
status code is in `retryableStatusCodes`. -/
def shouldRetry (statusCode : Nat) (errorMessage : Option String)
    (options : RetryOptions) : Bool :=
  if nonCountingGuard errorMessage options then false
  else if statusCode == 500 &&
      (match errorMessage with
       | some m => hasInfix m.data "Unknown streaming error".data
       | none => false) then true
  else options.retryableStatusCodes.contains statusCode

/-- Modelled from the spec's words for claim C4 (refinement comparison
only): identical to `shouldRetry` except that the carve-out tests for the
claim's literal string "unknown streaming error". -/
def shouldRetrySpecClaim (statusCode : Nat) (errorMessage : Option String)
    (options : RetryOptions) : Bool :=
  if (match errorMessage with
      | some m => isNonCountingError m options
      | none => false) then false
  else if statusCode == 500 &&
      (match errorMessage with
       | some m => hasInfix m.data "unknown streaming error".data
       | none => false) then true
  else options.retryableStatusCodes.contains statusCode

/-- The amended claim-C4 contract: as `shouldRetrySpecClaim` but with the
case-sensitive carve-out string "Unknown streaming error" actually used by
the source. -/
def shouldRetrySpecAmended (statusCode : Nat) (errorMessage : Option String)
    (options : RetryOptions) : Bool :=
  if (match errorMessage with
      | some m => isNonCountingError m options
      | none => false) then false
  else if statusCode == 500 &&
      (match errorMessage with
       | some m => hasInfix m.data "Unknown streaming error".data
       | none => false) then true
  else options.retryableStatusCodes.contains statusCode

/-- The errors a non-streaming attempt can throw, as discriminated by the
`catch` block of `chatCompletions` in `service.ts`: a `FetchError`
(optionally carrying a status code), any other `Error`, or a non-`Error`
thrown value (stringified by the handler). -/
inductive UpstreamError where
  | fetchError (statusCode : Option Nat) (message : String)
  | jsError (message : String)
  | otherThrown (text : String)
deriving DecidableEq, Repr

/-- The `(statusCode, errorMessage)` pair the `catch` block of
`chatCompletions` extracts: `statusCode = error.statusCode || 0` for a
`FetchError` and `0` otherwise. -/
def classifyError : UpstreamError → Nat × String
  | .fetchError statusCode message =>
      ((match statusCode with | some c => c | none => 0), message)
  | .jsError message => (0, message)
  | .otherThrown text => (0, text)

/-- Outcome of one invocation of the upstream request thunk. -/
inductive AttemptOutcome (α : Type) where
  | success (response : α)
  | failure (err : UpstreamError)
deriving DecidableEq, Repr

/-- The error object thrown by the streaming path: `error.status`,
`error.statusCode` and `error.message` accessed dynamically in
`service-streaming.ts`. -/
structure StreamError where
  status : Option Nat
  statusCode : Option Nat
  message : Option String
deriving DecidableEq, Repr

/-- Outcome of one invocation of the upstream streaming thunk. -/
inductive StreamAttempt (α : Type) where
  | success (response : α)
  | failure (err : StreamError)
deriving DecidableEq, Repr

/-- JavaScript truthiness of an optional number (`undefined` and `0` are
falsy). -/
def truthyNat : Option Nat → Bool
  | none => false
  | some n => n != 0

/-- `error.status || error.statusCode || 0` from `service-streaming.ts`. -/
def streamStatusCode (e : StreamError) : Nat :=
  if truthyNat e.status then e.status.getD 0
  else if truthyNat e.statusCode then e.statusCode.getD 0
  else 0

/-- `error.message || "Unknown streaming error"` from the streaming
request loop. -/
def streamErrorMsg (e : StreamError) : String :=
  match e.message with
  | some m => if m == "" then "Unknown streaming error" else m
  | none => "Unknown streaming error"

/-- The results a call can terminate with. -/
inductive CallError where
  | serviceUnavailable
  | upstream (err : UpstreamError)
  | streamUpstream (err : StreamError)
  | exhaustedRetries
deriving DecidableEq, Repr

/-- The `while (attempt <= retryOptions.maxRetries)` loop of
`chatCompletions` in `service.ts`.  `f` maps the invocation index to that
invocation's outcome; the returned `Nat` is the number of upstream
invocations performed (the `sleep` between attempts is irrelevant to the
state and is not modelled).  The loop guard `attempt <= maxRetries` is
realised structurally: `gas` counts the remaining loop iterations, and the
wrapper enters with `gas = maxRetries + 1` and `attempt = 0`, so `gas = 0`
is exactly the guard `attempt > maxRetries` (the retry branch keeps the
invariant `gas = maxRetries + 1 - attempt`). -/
def chatCompletionsLoop {α : Type} (opts : RetryOptions) (f : Nat → AttemptOutcome α)
    (now : Nat) : (gas attempt calls : Nat) → CBState →
    Except CallError α × CBState × Nat
  | 0, _attempt, calls, s => (Except.error CallError.exhaustedRetries, s, calls)
  | gas + 1, attempt, calls, s =>
    match f calls with
    | .success response => (Except.ok response, recordSuccess s, calls + 1)
    | .failure e =>
        let statusCode := (classifyError e).1
        let errorMessage := (classifyError e).2
        if isNonCountingError errorMessage opts then
          (Except.error (CallError.upstream e), s, calls + 1)
        else
          let s2 := recordFailure s now (some statusCode) (some errorMessage) opts
          if decide (attempt < opts.maxRetries) &&
              shouldRetry statusCode (some errorMessage) opts then
            chatCompletionsLoop opts f now gas (attempt + 1) (calls + 1) s2
          else
            (Except.error (CallError.upstream e), s2, calls + 1)

/-- `chatCompletions` from `service.ts`: fast-fail when the breaker is
open, otherwise run the retry loop from attempt 0. -/
def chatCompletions {α : Type} (opts : RetryOptions) (f : Nat → AttemptOutcome α)
    (now : Nat) (s : CBState) : Except CallError α × CBState × Nat :=
  if isCircuitOpen s then (Except.error CallError.serviceUnavailable, s, 0)
  else chatCompletionsLoop opts f now (opts.maxRetries + 1) 0 0 s

/-- The retry loop of `chatCompletionsStream` in `service-streaming.ts`:
like the non-streaming loop but with the dynamic status extraction, the
`"Unknown streaming error"` message fallback, and the widened retry
condition `shouldRetry(...) || statusCode === 500`.  Fuel plays the same
role as in `chatCompletionsLoop`. -/
def chatCompletionsStreamLoop {α : Type} (opts : RetryOptions)
    (f : Nat → StreamAttempt α) (now : Nat) : (gas attempt calls : Nat) → CBState →
    Except CallError α × CBState × Nat
  | 0, _attempt, calls, s => (Except.error CallError.exhaustedRetries, s, calls)
  | gas + 1, attempt, calls, s =>
    match f calls with
    | .success response => (Except.ok response, recordSuccess s, calls + 1)
    | .failure e =>
        let statusCode := streamStatusCode e
        let errorMsg := streamErrorMsg e
        if isNonCountingError errorMsg opts then
          (Except.error (CallError.streamUpstream e), s, calls + 1)
        else
          let s2 := recordFailure s now (some statusCode) (some errorMsg) opts
          if decide (attempt < opts.maxRetries) &&
              (shouldRetry statusCode (some errorMsg) opts || decide (statusCode = 500)) then
            chatCompletionsStreamLoop opts f now gas (attempt + 1) (calls + 1) s2
          else
            (Except.error (CallError.streamUpstream e), s2, calls + 1)

/-- `chatCompletionsStream` from `service-streaming.ts`: fast-fail when
the breaker is open, otherwise run the streaming retry loop from
attempt 0. -/
def chatCompletionsStream {α : Type} (opts : RetryOptions) (f : Nat → StreamAttempt α)
    (now : Nat) (s : CBState) : Except CallError α × CBState × Nat :=
  if isCircuitOpen s then (Except.error CallError.serviceUnavailable, s, 0)
  else chatCompletionsStreamLoop opts f now (opts.maxRetries + 1) 0 0 s

/-- `const errorMsg = err.message || "Unknown stream error"` — the message
the `onError` callback works with. -/
def streamOnErrorMsg (err : StreamError) : String :=
  match err.message with
  | some m => if m == "" then "Unknown stream error" else m
  | none => "Unknown stream error"

/-- The `onError` callback of the upstream `stream(...)` call in
`service-streaming.ts`: ignore non-counting errors; call `recordFailure`
only when `err.status` is truthy and `shouldRetry(err.status, errorMsg)`
holds; otherwise leave the breaker state untouched. -/
def onErrorRecord (opts : RetryOptions) (err : StreamError) (now : Nat)
    (s : CBState) : CBState :=
  let errorMsg := streamOnErrorMsg err
  if isNonCountingError errorMsg opts then s
  else if truthyNat err.status && shouldRetry (err.status.getD 0) (some errorMsg) opts then
    recordFailure s now err.status (some errorMsg) opts
  else s

/-- The `processStream` chunk-forwarding loop of the streaming route
handler.  Each list element is the result of `stream.writeSSE` for one
chunk: `none` when the write succeeds, `some msg` when it throws with
message `msg`.  Result: `(disconnected, attempted, state)` where
`disconnected` records the early `return` taken for a non-counting write
error, `attempted` counts the chunks whose write was attempted, and the
state is threaded unchanged (the loop never calls `recordFailure`).
The handler calls `isNonCountingError` with its default options, so
`DEFAULT_RETRY_OPTIONS` is used here. -/
def processStream (s : CBState) : List (Option String) → Bool × Nat × CBState
  | [] => (false, 0, s)
  | none :: rest =>
      let r := processStream s rest
      (r.1, r.2.1 + 1, r.2.2)
  | some writeErrorMsg :: rest =>
      if isNonCountingError writeErrorMsg DEFAULT_RETRY_OPTIONS then (true, 1, s)
      else
        let r := processStream s rest
        (r.1, r.2.1 + 1, r.2.2)

/-- One input to `recordFailure` (timestamp, status code, message). -/
structure FailureInput where
  now : Nat
  statusCode : Option Nat
  errorMessage : Option String
deriving DecidableEq, Repr

/-- Iterate `recordFailure` over a sequence of failures, oldest first. -/
def foldRecordFailure (opts : RetryOptions) (s : CBState) (inputs : List FailureInput) :
    CBState :=
  inputs.foldl (fun t x => recordFailure t x.now x.statusCode x.errorMessage opts) s

/-- The `recentFailures` entry a given input produces. -/
def failureEntry (x : FailureInput) : FailureRecord :=
  { timestamp := x.now, statusCode := x.statusCode, message := storedMessage x.errorMessage }

/-- A sample run of five counting failures (all with status 500 and plain
error messages), used to exercise the breaker threshold concretely. -/
def fiveCountingFailures : List FailureInput :=
  [⟨0, some 500, some ("boom one")⟩, ⟨1, some 500, some ("boom two")⟩,
   ⟨2, some 500, some ("boom three")⟩, ⟨3, some 500, some ("boom four")⟩,
   ⟨4, some 500, some ("boom five")⟩]

/-! ## Basic lemmas about the classifier and the breaker state -/

theorem isNonCountingError_empty (opts : RetryOptions) :
    isNonCountingError "" opts = false := by
  simp [isNonCountingError]

theorem isNonCountingError_ne_empty {m : String} {opts : RetryOptions}
    (h : isNonCountingError m opts = true) : m ≠ "" := by
  intro he
  subst he
  rw [isNonCountingError_empty] at h
  exact Bool.false_ne_true h

theorem nonCountingGuard_some_true {m : String} {opts : RetryOptions}
    (h : isNonCountingError m opts = true) : nonCountingGuard (some m) opts = true := by
  have hm : (m == "") = false := beq_eq_false_iff_ne.mpr (isNonCountingError_ne_empty h)
  simp [nonCountingGuard, hm, h]

theorem nonCountingGuard_some_false {m : String} {opts : RetryOptions}
    (h : isNonCountingError m opts = false) : nonCountingGuard (some m) opts = false := by
  simp [nonCountingGuard, h]

theorem recordSuccess_resets (s : CBState) :
    (recordSuccess s).consecutiveFailures = 0 ∧ (recordSuccess s).circuitOpen = false := by
  by_cases h : s.circuitOpen <;> simp [recordSuccess, h]

/-- The unshift-then-pop update of `recentFailures` is `take` at capacity,
provided the buffer respected the capacity before the push. -/
theorem bufferPush_eq_take (e : FailureRecord) (l : List FailureRecord)
    (h : l.length ≤ MAX_RECENT_FAILURES) :
    (if (e :: l).length > MAX_RECENT_FAILURES then (e :: l).dropLast else (e :: l))
      = (e :: l).take MAX_RECENT_FAILURES := by
  split
  next hgt =>
    have hlen : (e :: l).length = MAX_RECENT_FAILURES + 1 := by
      simp only [List.length_cons] at hgt ⊢
      omega
    rw [List.dropLast_eq_take, hlen]
    norm_num
  next hle =>
    have : (e :: l).length ≤ MAX_RECENT_FAILURES := by
      simp only [List.length_cons] at hle ⊢
      omega
    exact (List.take_of_length_le this).symm

/-- The head of the buffer after a push is always the new entry. -/
theorem bufferPush_head (e : FailureRecord) (l : List FailureRecord) :
    (if (e :: l).length > MAX_RECENT_FAILURES then (e :: l).dropLast else (e :: l)).head?
      = some e := by
  split
  next hgt =>
    match l with
    | [] => simp [MAX_RECENT_FAILURES] at hgt
    | a :: t => simp
  next => simp

/-- In every branch of `recordFailure` the resulting buffer is the
unshift-then-pop update. -/
theorem recordFailure_buffer_shape (s : CBState) (now : Nat) (statusCode : Option Nat)
    (errorMessage : Option String) (opts : RetryOptions) :
    (recordFailure s now statusCode errorMessage opts).recentFailures =
      (if (failureEntry ⟨now, statusCode, errorMessage⟩ :: s.recentFailures).length >
          MAX_RECENT_FAILURES
       then (failureEntry ⟨now, statusCode, errorMessage⟩ :: s.recentFailures).dropLast
       else failureEntry ⟨now, statusCode, errorMessage⟩ :: s.recentFailures) := by
  by_cases hg : nonCountingGuard errorMessage opts <;>
    simp [recordFailure, failureEntry, hg, apply_ite CBState.recentFailures]

/-- `recordFailure` always pushes its entry onto the buffer; the buffer is
the push truncated to capacity whenever it was within capacity before. -/
theorem recordFailure_recentFailures (s : CBState) (now : Nat) (statusCode : Option Nat)
    (errorMessage : Option String) (opts : RetryOptions)
    (h : s.recentFailures.length ≤ MAX_RECENT_FAILURES) :
    (recordFailure s now statusCode errorMessage opts).recentFailures =
      (failureEntry ⟨now, statusCode, errorMessage⟩ :: s.recentFailures).take
        MAX_RECENT_FAILURES := by
  rw [recordFailure_buffer_shape, bufferPush_eq_take _ _ h]

/-- The head of the buffer after any `recordFailure` is the new entry. -/
theorem recordFailure_recentFailures_head (s : CBState) (now : Nat)
    (statusCode : Option Nat) (errorMessage : Option String) (opts : RetryOptions) :
    (recordFailure s now statusCode errorMessage opts).recentFailures.head? =
      some (failureEntry ⟨now, statusCode, errorMessage⟩) := by
  rw [recordFailure_buffer_shape]
  exact bufferPush_head _ _

/-- A non-counting `recordFailure` changes no field other than the
buffer. -/
theorem recordFailure_nonCounting_frame (s : CBState) (now : Nat)
    (statusCode : Option Nat) (errorMessage : Option String) (opts : RetryOptions)
    (hg : nonCountingGuard errorMessage opts = true) :
    (recordFailure s now statusCode errorMessage opts).consecutiveFailures
        = s.consecutiveFailures ∧
    (recordFailure s now statusCode errorMessage opts).circuitOpen = s.circuitOpen ∧
    (recordFailure s now statusCode errorMessage opts).lastCircuitOpenTime
        = s.lastCircuitOpenTime ∧
    (recordFailure s now statusCode errorMessage opts).circuitResetTimer
        = s.circuitResetTimer := by
  simp [recordFailure, hg]

/-- A counting `recordFailure` increments the counter and opens the
circuit exactly when the incremented counter reaches the threshold. -/
theorem recordFailure_counting (s : CBState) (now : Nat) (statusCode : Option Nat)
    (errorMessage : Option String) (opts : RetryOptions)
    (hg : nonCountingGuard errorMessage opts = false) :
    (recordFailure s now statusCode errorMessage opts).consecutiveFailures
        = s.consecutiveFailures + 1 ∧
    (recordFailure s now statusCode errorMessage opts).circuitOpen
        = (s.circuitOpen || decide (FAILURE_THRESHOLD ≤ s.consecutiveFailures + 1)) := by
  by_cases ho : s.circuitOpen <;>
    by_cases hth : FAILURE_THRESHOLD ≤ s.consecutiveFailures + 1 <;>
      simp [recordFailure, hg, ho, hth]

/-! ## Backoff lemmas -/

/-- A jitter draw in `[0, 1]` keeps the delay within ±20% of the base. -/
theorem calculateBackoff_bounds (attempt : Nat) (options : RetryOptions) (rand : ℚ)
    (h0 : 0 ≤ rand) (h1 : rand ≤ 1) (hb : 0 ≤ baseDelay attempt options) :
    (4 / 5) * baseDelay attempt options ≤ calculateBackoff attempt options rand ∧
      calculateBackoff attempt options rand ≤ (6 / 5) * baseDelay attempt options := by
  have hbr : 0 ≤ baseDelay attempt options * rand := mul_nonneg hb h0
  have hbr1 : 0 ≤ baseDelay attempt options * (1 - rand) :=
    mul_nonneg hb (by linarith)
  constructor <;> (simp only [calculateBackoff]; nlinarith)

theorem baseDelay_default_small (attempt : Nat) (h : attempt ≤ 3) :
    baseDelay attempt DEFAULT_RETRY_OPTIONS = 1000 * 2 ^ attempt := by
  have hle : (1000 : ℚ) * 2 ^ attempt ≤ 10000 := by
    have : (2 : ℚ) ^ attempt ≤ 2 ^ 3 := pow_le_pow_right₀ (by norm_num) h
    nlinarith
  simp only [baseDelay, DEFAULT_RETRY_OPTIONS]
  exact min_eq_right hle

theorem baseDelay_default_capped (attempt : Nat) (h : 4 ≤ attempt) :
    baseDelay attempt DEFAULT_RETRY_OPTIONS = 10000 := by
  have h16 : (16 : ℚ) ≤ 2 ^ attempt := by
    calc (16 : ℚ) = 2 ^ 4 := by norm_num
    _ ≤ 2 ^ attempt := pow_le_pow_right₀ (by norm_num) h
  have hge : (10000 : ℚ) ≤ 1000 * 2 ^ attempt := by nlinarith
  simp only [baseDelay, DEFAULT_RETRY_OPTIONS]
  exact min_eq_left hge

/-! ## Ring-buffer fold lemmas -/

theorem take_append_take {γ : Type} (A B : List γ) (n : Nat) :
    (A ++ B.take n).take n = (A ++ B).take n := by
  simp [List.take_append_eq_append_take, List.take_take,
    Nat.min_eq_left (Nat.sub_le n A.length)]

theorem foldRecordFailure_cons (opts : RetryOptions) (s : CBState) (x : FailureInput)
    (xs : List FailureInput) :
    foldRecordFailure opts s (x :: xs) =
      foldRecordFailure opts (recordFailure s x.now x.statusCode x.errorMessage opts) xs :=
  rfl

theorem foldRecordFailure_recentFailures (opts : RetryOptions) :
    ∀ (inputs : List FailureInput) (s : CBState),
      s.recentFailures.length ≤ MAX_RECENT_FAILURES →
      (foldRecordFailure opts s inputs).recentFailures =
        ((inputs.map failureEntry).reverse ++ s.recentFailures).take MAX_RECENT_FAILURES := by
  intro inputs
  induction inputs with
  | nil =>
    intro s h
    simp [foldRecordFailure, List.take_of_length_le h]
  | cons x xs ih =>
    intro s h
    rw [foldRecordFailure_cons]
    have hstep := recordFailure_recentFailures s x.now x.statusCode x.errorMessage opts h
    have hlen : (recordFailure s x.now x.statusCode x.errorMessage opts).recentFailures.length
        ≤ MAX_RECENT_FAILURES := by
      rw [hstep]
      exact List.length_take_le _ _
    rw [ih _ hlen, hstep]
    rw [take_append_take]
    simp [List.append_assoc]

/-! ## Breaker-threshold fold lemma -/

theorem foldRecordFailure_opens (opts : RetryOptions) :
    ∀ (inputs : List FailureInput) (s : CBState),
      (∀ x ∈ inputs, nonCountingGuard x.errorMessage opts = false) →
      s.circuitOpen = false →
      s.consecutiveFailures + inputs.length = FAILURE_THRESHOLD →
      inputs ≠ [] →
      (foldRecordFailure opts s inputs).circuitOpen = true := by
  intro inputs
  induction inputs with
  | nil => intro s _ _ _ hne; exact absurd rfl hne
  | cons x xs ih =>
    intro s hcnt hclosed hsum _
    have hx : nonCountingGuard x.errorMessage opts = false :=
      hcnt x (List.mem_cons_self x xs)
    have hrec := recordFailure_counting s x.now x.statusCode x.errorMessage opts hx
    rw [foldRecordFailure_cons]
    cases xs with
    | nil =>
      have hth : FAILURE_THRESHOLD ≤ s.consecutiveFailures + 1 := by
        simp at hsum
        omega
      have hopen : (recordFailure s x.now x.statusCode x.errorMessage opts).circuitOpen
          = true := by
        rw [hrec.2, hclosed]
        simp [hth]
      exact hopen
    | cons y ys =>
      have hlt : ¬ FAILURE_THRESHOLD ≤ s.consecutiveFailures + 1 := by
        simp at hsum
        omega
      have hclosed2 : (recordFailure s x.now x.statusCode x.errorMessage opts).circuitOpen
          = false := by
        rw [hrec.2, hclosed]
        simp [hlt]
      refine ih _ (fun z hz => hcnt z (List.mem_cons_of_mem x hz)) hclosed2 ?_ (by simp)
      rw [hrec.1]
      simp at hsum ⊢
      omega

/-! ## Stream-relay invariant -/

theorem processStream_state (s : CBState) :
    ∀ writes : List (Option String), (processStream s writes).2.2 = s := by
  intro writes
  induction writes with
  | nil => rfl
  | cons w rest ih =>
    cases w with
    | none => simp [processStream, ih]
    | some m =>
      by_cases hm : isNonCountingError m DEFAULT_RETRY_OPTIONS <;>
        simp [processStream, hm, ih]

/-! ## Claim theorems -/

/-- C4 counterexample: at status code 500 with the message
"unknown streaming error" (lower case, which contains the claim's quoted
string and is not non-counting) and a policy whose
`retryableStatusCodes` is empty, `shouldRetry` returns `false` although
the claim demands `true` — the source's carve-out tests for the
case-sensitive string "Unknown streaming error". -/
theorem c4_counterexample :
    hasInfix ("unknown streaming error").data ("unknown streaming error").data = true ∧
    isNonCountingError ("unknown streaming error")
        { DEFAULT_RETRY_OPTIONS with retryableStatusCodes := [] } = false ∧
    shouldRetrySpecClaim 500 (some ("unknown streaming error"))
        { DEFAULT_RETRY_OPTIONS with retryableStatusCodes := [] } = true ∧
    shouldRetry 500 (some ("unknown streaming error"))
        { DEFAULT_RETRY_OPTIONS with retryableStatusCodes := [] } = false := by
  decide

/-- C4 (amended): for every policy, status code and message, `shouldRetry`
is false whenever `isNonCounting(message)` is true; it is true whenever
the status code is 500 and the message contains the case-sensitive string
"Unknown streaming error"; otherwise it is true exactly when the status
code is in `policy.retryableStatusCodes` — i.e. `shouldRetry` coincides
with the spec-level contract `shouldRetrySpecAmended`. -/
theorem c4_amended_shouldRetry_contract (statusCode : Nat) (errorMessage : Option String)
    (options : RetryOptions) :
    shouldRetry statusCode errorMessage options =
      shouldRetrySpecAmended statusCode errorMessage options := by
  cases errorMessage with
  | none => rfl
  | some m =>
    by_cases hm : m = ""
    · subst hm
      simp [shouldRetry, shouldRetrySpecAmended, nonCountingGuard, isNonCountingError_empty]
    · have hm' : (m == "") = false := beq_eq_false_iff_ne.mpr hm
      simp [shouldRetry, shouldRetrySpecAmended, nonCountingGuard, hm']

/-- C5 counterexample: at attempt 4 under the default policy, the valid
jitter draw 3/4 produces a delay of 11000 ms, outside the claimed interval
[8000, 10000] — with base 10000 and +20% jitter the delay ranges up to
12000. -/
theorem c5_counterexample :
    (0 : ℚ) ≤ 3 / 4 ∧ (3 / 4 : ℚ) ≤ 1 ∧
    calculateBackoff 4 DEFAULT_RETRY_OPTIONS (3 / 4) = 11000 ∧
    ¬ calculateBackoff 4 DEFAULT_RETRY_OPTIONS (3 / 4) ≤ 10000 := by
  norm_num [calculateBackoff, baseDelay, DEFAULT_RETRY_OPTIONS]

/-- C5 (amended): for every attempt and every jitter draw in [0, 1],
`calculateBackoff` equals base + jitter with
`base = min(maxDelayMs, initialDelayMs * backoffFactor^attempt)` and
jitter within ±0.2·base, is never negative for base ≥ 0, and under the
default policy lies within [800, 1200] for attempt 0, [1600, 2400] for
attempt 1, [3200, 4800] for attempt 2, [6400, 9600] for attempt 3, and
within [8000, 12000] (not [8000, 10000]) for every attempt ≥ 4. -/
theorem c5_amended_backoff_ranges (attempt : Nat) (options : RetryOptions) (rand : ℚ)
    (h0 : 0 ≤ rand) (h1 : rand ≤ 1) (hb : 0 ≤ baseDelay attempt options) :
    calculateBackoff attempt options rand =
      baseDelay attempt options + baseDelay attempt options * (2 / 10) * (rand * 2 - 1) ∧
    (4 / 5) * baseDelay attempt options ≤ calculateBackoff attempt options rand ∧
    calculateBackoff attempt options rand ≤ (6 / 5) * baseDelay attempt options ∧
    0 ≤ calculateBackoff attempt options rand ∧
    (800 ≤ calculateBackoff 0 DEFAULT_RETRY_OPTIONS rand ∧
      calculateBackoff 0 DEFAULT_RETRY_OPTIONS rand ≤ 1200) ∧
    (1600 ≤ calculateBackoff 1 DEFAULT_RETRY_OPTIONS rand ∧
      calculateBackoff 1 DEFAULT_RETRY_OPTIONS rand ≤ 2400) ∧
    (3200 ≤ calculateBackoff 2 DEFAULT_RETRY_OPTIONS rand ∧
      calculateBackoff 2 DEFAULT_RETRY_OPTIONS rand ≤ 4800) ∧
    (6400 ≤ calculateBackoff 3 DEFAULT_RETRY_OPTIONS rand ∧
      calculateBackoff 3 DEFAULT_RETRY_OPTIONS rand ≤ 9600) ∧
    (4 ≤ attempt →
      8000 ≤ calculateBackoff attempt DEFAULT_RETRY_OPTIONS rand ∧
        calculateBackoff attempt DEFAULT_RETRY_OPTIONS rand ≤ 12000) := by
  have hgen := calculateBackoff_bounds attempt options rand h0 h1 hb
  have hd0 : baseDelay 0 DEFAULT_RETRY_OPTIONS = 1000 := by
    rw [baseDelay_default_small 0 (by norm_num)]; norm_num
  have hd1 : baseDelay 1 DEFAULT_RETRY_OPTIONS = 2000 := by
    rw [baseDelay_default_small 1 (by norm_num)]; norm_num
  have hd2 : baseDelay 2 DEFAULT_RETRY_OPTIONS = 4000 := by
    rw [baseDelay_default_small 2 (by norm_num)]; norm_num
  have hd3 : baseDelay 3 DEFAULT_RETRY_OPTIONS = 8000 := by
    rw [baseDelay_default_small 3 (by norm_num)]; norm_num
  have hb0 := calculateBackoff_bounds 0 DEFAULT_RETRY_OPTIONS rand h0 h1 (by rw [hd0]; norm_num)
  have hb1 := calculateBackoff_bounds 1 DEFAULT_RETRY_OPTIONS rand h0 h1 (by rw [hd1]; norm_num)
  have hb2 := calculateBackoff_bounds 2 DEFAULT_RETRY_OPTIONS rand h0 h1 (by rw [hd2]; norm_num)
  have hb3 := calculateBackoff_bounds 3 DEFAULT_RETRY_OPTIONS rand h0 h1 (by rw [hd3]; norm_num)
  rw [hd0] at hb0
  rw [hd1] at hb1
  rw [hd2] at hb2
  rw [hd3] at hb3
  refine ⟨rfl, hgen.1, hgen.2, by nlinarith [hgen.1], ?_, ?_, ?_, ?_, ?_⟩
  · constructor <;> linarith [hb0.1, hb0.2]
  · constructor <;> linarith [hb1.1, hb1.2]
  · constructor <;> linarith [hb2.1, hb2.2]
  · constructor <;> linarith [hb3.1, hb3.2]
  · intro h4
    have hcap := baseDelay_default_capped attempt h4
    have hbc := calculateBackoff_bounds attempt DEFAULT_RETRY_OPTIONS rand h0 h1
      (by rw [hcap]; norm_num)
    rw [hcap] at hbc
    constructor <;> linarith [hbc.1, hbc.2]

/-- C5 witness: the amended theorem applied at attempt 6 and jitter draw
1/2, giving a delay in [8000, 12000]. -/
theorem c5_witness :
    8000 ≤ calculateBackoff 6 DEFAULT_RETRY_OPTIONS (1 / 2) ∧
      calculateBackoff 6 DEFAULT_RETRY_OPTIONS (1 / 2) ≤ 12000 :=
  (c5_amended_backoff_ranges 6 DEFAULT_RETRY_OPTIONS (1 / 2) (by norm_num) (by norm_num)
      (by rw [baseDelay_default_capped 6 (by norm_num)]; norm_num)).2.2.2.2.2.2.2.2
    (by norm_num)

/-- C6: a `recordFailure` whose message is classified non-counting appends
the entry to `recentFailures` (it becomes the newest, front entry) and
leaves `consecutiveFailures`, the open/closed gate, `lastCircuitOpenTime`
and the pending reset timer unchanged, for every status code. -/
theorem c6_noncounting_failure_frame (s : CBState) (now : Nat) (statusCode : Option Nat)
    (m : String) (opts : RetryOptions) (hnc : isNonCountingError m opts = true) :
    (recordFailure s now statusCode (some m) opts).consecutiveFailures
        = s.consecutiveFailures ∧
    (recordFailure s now statusCode (some m) opts).circuitOpen = s.circuitOpen ∧
    (recordFailure s now statusCode (some m) opts).lastCircuitOpenTime
        = s.lastCircuitOpenTime ∧
    (recordFailure s now statusCode (some m) opts).circuitResetTimer
        = s.circuitResetTimer ∧
    (recordFailure s now statusCode (some m) opts).recentFailures.head?
        = some { timestamp := now, statusCode := statusCode, message := m } := by
  have hg := nonCountingGuard_some_true hnc
  have hframe := recordFailure_nonCounting_frame s now statusCode (some m) opts hg
  have hhead := recordFailure_recentFailures_head s now statusCode (some m) opts
  have hm' : (m == "") = false := beq_eq_false_iff_ne.mpr (isNonCountingError_ne_empty hnc)
  refine ⟨hframe.1, hframe.2.1, hframe.2.2.1, hframe.2.2.2, ?_⟩
  rw [hhead]
  simp [failureEntry, storedMessage, hm']

/-- C6 witness: the theorem at the initial state with the non-counting
message "aborted" and status code 0. -/
theorem c6_witness :
    (recordFailure cbInitialState 0 (some 0) (some ("aborted"))
        DEFAULT_RETRY_OPTIONS).consecutiveFailures
      = cbInitialState.consecutiveFailures ∧
    (recordFailure cbInitialState 0 (some 0) (some ("aborted"))
        DEFAULT_RETRY_OPTIONS).circuitOpen = cbInitialState.circuitOpen ∧
    (recordFailure cbInitialState 0 (some 0) (some ("aborted"))
        DEFAULT_RETRY_OPTIONS).lastCircuitOpenTime = cbInitialState.lastCircuitOpenTime ∧
    (recordFailure cbInitialState 0 (some 0) (some ("aborted"))
        DEFAULT_RETRY_OPTIONS).circuitResetTimer = cbInitialState.circuitResetTimer ∧
    (recordFailure cbInitialState 0 (some 0) (some ("aborted"))
        DEFAULT_RETRY_OPTIONS).recentFailures.head?
      = some { timestamp := 0, statusCode := some 0, message := ("aborted") } :=
  c6_noncounting_failure_frame cbInitialState 0 (some 0) ("aborted")
    DEFAULT_RETRY_OPTIONS (by decide)

/-- C8: starting from the initial state, after any sequence of
`recordFailure` calls the buffer holds exactly the `min(20, total)` most
recent failures, newest first (the `take` of the reversed input sequence),
its length is `min(20, total)`, and the capacity constant is 20. -/
theorem c8_recent_failures_ring_buffer (opts : RetryOptions) (inputs : List FailureInput) :
    (foldRecordFailure opts cbInitialState inputs).recentFailures =
      ((inputs.map failureEntry).reverse).take MAX_RECENT_FAILURES ∧
    (foldRecordFailure opts cbInitialState inputs).recentFailures.length =
      min MAX_RECENT_FAILURES inputs.length ∧
    MAX_RECENT_FAILURES = 20 := by
  have h := foldRecordFailure_recentFailures opts inputs cbInitialState
    (by simp [cbInitialState])
  have he : cbInitialState.recentFailures = [] := rfl
  rw [he, List.append_nil] at h
  refine ⟨h, ?_, rfl⟩
  rw [h]
  simp [List.length_take]

/-- C9: in the relay's chunk-forwarding loop, a write failure classified
non-counting ends the session at that chunk with the state untouched and
no further chunk attempted, while a counting write failure lets forwarding
continue with the remaining chunks; the loop never records a failure
(the breaker state is returned unchanged for every chunk sequence). -/
theorem c9_relay_write_failures (writeErrorMsg : String) (rest : List (Option String))
    (s : CBState) :
    processStream s (some writeErrorMsg :: rest) =
      (if isNonCountingError writeErrorMsg DEFAULT_RETRY_OPTIONS then (true, 1, s)
       else ((processStream s rest).1, (processStream s rest).2.1 + 1, s)) ∧
    (∀ writes : List (Option String), (processStream s writes).2.2 = s) := by
  refine ⟨?_, processStream_state s⟩
  by_cases hm : isNonCountingError writeErrorMsg DEFAULT_RETRY_OPTIONS <;>
    simp [processStream, hm, processStream_state s rest]

/-- C2 counterexample: a mid-stream upstream error delivered to the
streaming `onError` callback with the counting, non-retryable status 400
is neither appended to `recentFailures` nor counted — the callback only
calls `recordFailure` when the status is truthy and retryable, refuting
the claim that every such failure is appended and counted. -/
theorem c2_counterexample_midstream_not_recorded :
    isNonCountingError ("bad request") DEFAULT_RETRY_OPTIONS = false ∧
    (onErrorRecord DEFAULT_RETRY_OPTIONS ⟨some 400, none, some ("bad request")⟩ 0
        cbInitialState).recentFailures = [] ∧
    (onErrorRecord DEFAULT_RETRY_OPTIONS ⟨some 400, none, some ("bad request")⟩ 0
        cbInitialState).consecutiveFailures = 0 := by
  decide

/-- C2 (amended): for every state, status code and message, `recordFailure`
appends its entry to `recentFailures` as the newest element (the buffer
being the push truncated to capacity whenever it was within capacity), and
every counting (non-excluded) failure — retryable or not — increments
`consecutiveFailures`; a mid-stream error delivered to the streaming
`onError` callback reaches `recordFailure` exactly when its status is
truthy and `shouldRetry(status, message)` holds, and otherwise (in
particular for a counting, non-retryable status) leaves the breaker state
entirely unchanged. -/
theorem c2_amended_recording_semantics (opts : RetryOptions) (now : Nat) :
    (∀ (s : CBState) (statusCode : Option Nat) (errorMessage : Option String),
       (recordFailure s now statusCode errorMessage opts).recentFailures.head?
         = some (failureEntry ⟨now, statusCode, errorMessage⟩)) ∧
    (∀ (s : CBState) (statusCode : Option Nat) (errorMessage : Option String),
       s.recentFailures.length ≤ MAX_RECENT_FAILURES →
       (recordFailure s now statusCode errorMessage opts).recentFailures
         = (failureEntry ⟨now, statusCode, errorMessage⟩ :: s.recentFailures).take
             MAX_RECENT_FAILURES) ∧
    (∀ (s : CBState) (statusCode : Option Nat) (errorMessage : Option String),
       nonCountingGuard errorMessage opts = false →
       (recordFailure s now statusCode errorMessage opts).consecutiveFailures
         = s.consecutiveFailures + 1) ∧
    (∀ (s : CBState) (err : StreamError),
       (truthyNat err.status &&
           shouldRetry (err.status.getD 0) (some (streamOnErrorMsg err)) opts) = false →
       onErrorRecord opts err now s = s) ∧
    (∀ (s : CBState) (err : StreamError),
       isNonCountingError (streamOnErrorMsg err) opts = false →
       (truthyNat err.status &&
           shouldRetry (err.status.getD 0) (some (streamOnErrorMsg err)) opts) = true →
       onErrorRecord opts err now s =
         recordFailure s now err.status (some (streamOnErrorMsg err)) opts) := by
  refine ⟨?_, ?_, ?_, ?_, ?_⟩
  · intro s statusCode errorMessage
    exact recordFailure_recentFailures_head s now statusCode errorMessage opts
  · intro s statusCode errorMessage hlen
    exact recordFailure_recentFailures s now statusCode errorMessage opts hlen
  · intro s statusCode errorMessage hg
    exact (recordFailure_counting s now statusCode errorMessage opts hg).1
  · intro s err hguard
    by_cases hnc : isNonCountingError (streamOnErrorMsg err) opts <;>
      simp [onErrorRecord, hnc, hguard]
  · intro s err hnc hguard
    simp [onErrorRecord, hnc, hguard]

/-- C2 witness: the amended theorem at the initial state — every failure
appended (shown for the non-counting message "timeout"), the counter
incremented for the retryable counting failure 503/"upstream boom" and for
the non-retryable counting failure 400/"bad request" alike, the `onError`
callback a no-op for the non-retryable 400 and exactly one `recordFailure`
for the retryable 503. -/
theorem c2_witness :
    (recordFailure cbInitialState 0 (some 0) (some ("timeout"))
        DEFAULT_RETRY_OPTIONS).recentFailures.head?
      = some (failureEntry ⟨0, some 0, some ("timeout")⟩) ∧
    (recordFailure cbInitialState 0 (some 503) (some ("upstream boom"))
        DEFAULT_RETRY_OPTIONS).consecutiveFailures
      = cbInitialState.consecutiveFailures + 1 ∧
    (recordFailure cbInitialState 0 (some 400) (some ("bad request"))
        DEFAULT_RETRY_OPTIONS).consecutiveFailures
      = cbInitialState.consecutiveFailures + 1 ∧
    onErrorRecord DEFAULT_RETRY_OPTIONS ⟨some 400, none, some ("bad request")⟩ 0
      cbInitialState = cbInitialState ∧
    onErrorRecord DEFAULT_RETRY_OPTIONS ⟨some 503, none, some ("upstream boom")⟩ 0
      cbInitialState =
      recordFailure cbInitialState 0 (some 503) (some ("upstream boom"))
        DEFAULT_RETRY_OPTIONS := by
  have h := c2_amended_recording_semantics DEFAULT_RETRY_OPTIONS 0
  exact ⟨h.1 _ _ _, h.2.2.1 _ _ _ (by decide), h.2.2.1 _ _ _ (by decide),
    h.2.2.2.1 _ _ (by decide), h.2.2.2.2 _ _ (by decide) (by decide)⟩

/-! ## One-step lemmas for the executor loop -/

theorem chatLoop_step_success {α : Type} (opts : RetryOptions) (f : Nat → AttemptOutcome α)
    (now gas attempt calls : Nat) (s : CBState) (r : α)
    (hfc : f calls = AttemptOutcome.success r) :
    chatCompletionsLoop opts f now (gas + 1) attempt calls s =
      (Except.ok r, recordSuccess s, calls + 1) := by
  simp [chatCompletionsLoop, hfc]

theorem chatLoop_step_nonCounting {α : Type} (opts : RetryOptions)
    (f : Nat → AttemptOutcome α) (now gas attempt calls : Nat) (s : CBState)
    (e : UpstreamError)
    (hfc : f calls = AttemptOutcome.failure e)
    (hnc : isNonCountingError (classifyError e).2 opts = true) :
    chatCompletionsLoop opts f now (gas + 1) attempt calls s =
      (Except.error (CallError.upstream e), s, calls + 1) := by
  simp [chatCompletionsLoop, hfc, hnc]

theorem chatLoop_step_retry {α : Type} (opts : RetryOptions) (f : Nat → AttemptOutcome α)
    (now gas attempt calls : Nat) (s : CBState) (e : UpstreamError)
    (hfc : f calls = AttemptOutcome.failure e)
    (hnc : isNonCountingError (classifyError e).2 opts = false)
    (hretry : (decide (attempt < opts.maxRetries) &&
      shouldRetry (classifyError e).1 (some (classifyError e).2) opts) = true) :
    chatCompletionsLoop opts f now (gas + 1) attempt calls s =
      chatCompletionsLoop opts f now gas (attempt + 1) (calls + 1)
        (recordFailure s now (some (classifyError e).1) (some (classifyError e).2) opts) := by
  simp [chatCompletionsLoop, hfc, hnc, hretry]

theorem chatLoop_step_terminal {α : Type} (opts : RetryOptions) (f : Nat → AttemptOutcome α)
    (now gas attempt calls : Nat) (s : CBState) (e : UpstreamError)
    (hfc : f calls = AttemptOutcome.failure e)
    (hnc : isNonCountingError (classifyError e).2 opts = false)
    (hretry : (decide (attempt < opts.maxRetries) &&
      shouldRetry (classifyError e).1 (some (classifyError e).2) opts) = false) :
    chatCompletionsLoop opts f now (gas + 1) attempt calls s =
      (Except.error (CallError.upstream e),
        recordFailure s now (some (classifyError e).1) (some (classifyError e).2) opts,
        calls + 1) := by
  simp [chatCompletionsLoop, hfc, hnc, hretry]

/-! ## Inductive facts about the executor loop -/

theorem chatLoop_calls_lower {α : Type} (opts : RetryOptions) (f : Nat → AttemptOutcome α)
    (now : Nat) :
    ∀ (gas attempt calls : Nat) (s : CBState),
      calls ≤ (chatCompletionsLoop opts f now gas attempt calls s).2.2 := by
  intro gas
  induction gas with
  | zero => intro attempt calls s; simp [chatCompletionsLoop]
  | succ gas ih =>
    intro attempt calls s
    cases hfc : f calls with
    | success r =>
      rw [chatLoop_step_success opts f now gas attempt calls s r hfc]
      exact Nat.le_succ calls
    | failure e =>
      by_cases hnc : isNonCountingError (classifyError e).2 opts = true
      · rw [chatLoop_step_nonCounting opts f now gas attempt calls s e hfc hnc]
        exact Nat.le_succ calls
      · rw [Bool.not_eq_true] at hnc
        by_cases hretry : (decide (attempt < opts.maxRetries) &&
            shouldRetry (classifyError e).1 (some (classifyError e).2) opts) = true
        · rw [chatLoop_step_retry opts f now gas attempt calls s e hfc hnc hretry]
          exact le_trans (Nat.le_succ calls) (ih (attempt + 1) (calls + 1) _)
        · rw [Bool.not_eq_true] at hretry
          rw [chatLoop_step_terminal opts f now gas attempt calls s e hfc hnc hretry]
          exact Nat.le_succ calls

theorem chatLoop_calls_upper {α : Type} (opts : RetryOptions) (f : Nat → AttemptOutcome α)
    (now : Nat) :
    ∀ (gas attempt calls : Nat) (s : CBState),
      (chatCompletionsLoop opts f now gas attempt calls s).2.2 ≤ calls + gas := by
  intro gas
  induction gas with
  | zero => intro attempt calls s; simp [chatCompletionsLoop]
  | succ gas ih =>
    intro attempt calls s
    cases hfc : f calls with
    | success r =>
      rw [chatLoop_step_success opts f now gas attempt calls s r hfc]
      show calls + 1 ≤ calls + (gas + 1)
      omega
    | failure e =>
      by_cases hnc : isNonCountingError (classifyError e).2 opts = true
      · rw [chatLoop_step_nonCounting opts f now gas attempt calls s e hfc hnc]
        show calls + 1 ≤ calls + (gas + 1)
        omega
      · rw [Bool.not_eq_true] at hnc
        by_cases hretry : (decide (attempt < opts.maxRetries) &&
            shouldRetry (classifyError e).1 (some (classifyError e).2) opts) = true
        · rw [chatLoop_step_retry opts f now gas attempt calls s e hfc hnc hretry]
          have hup := ih (attempt + 1) (calls + 1)
            (recordFailure s now (some (classifyError e).1) (some (classifyError e).2) opts)
          omega
        · rw [Bool.not_eq_true] at hretry
          rw [chatLoop_step_terminal opts f now gas attempt calls s e hfc hnc hretry]
          show calls + 1 ≤ calls + (gas + 1)
          omega

theorem chatLoop_ok_characterisation {α : Type} (opts : RetryOptions)
    (f : Nat → AttemptOutcome α) (now : Nat) :
    ∀ (gas attempt calls : Nat) (s : CBState) (r : α),
      (chatCompletionsLoop opts f now gas attempt calls s).1 = Except.ok r →
      calls < (chatCompletionsLoop opts f now gas attempt calls s).2.2 ∧
      f ((chatCompletionsLoop opts f now gas attempt calls s).2.2 - 1)
        = AttemptOutcome.success r ∧
      (∀ j, calls ≤ j → j + 1 < (chatCompletionsLoop opts f now gas attempt calls s).2.2 →
        ∃ e, f j = AttemptOutcome.failure e) ∧
      (∃ t, (chatCompletionsLoop opts f now gas attempt calls s).2.1 = recordSuccess t) := by
  intro gas
  induction gas with
  | zero =>
    intro attempt calls s r h
    simp [chatCompletionsLoop] at h
  | succ gas ih =>
    intro attempt calls s r h
    cases hfc : f calls with
    | success r0 =>
      rw [chatLoop_step_success opts f now gas attempt calls s r0 hfc] at h ⊢
      have hr : r0 = r := by
        simpa using h
      subst hr
      refine ⟨Nat.lt_succ_self calls, by simpa using hfc, ?_, ⟨s, rfl⟩⟩
      intro j hj1 hj2
      have hj2' : j + 1 < calls + 1 := hj2
      omega
    | failure e =>
      by_cases hnc : isNonCountingError (classifyError e).2 opts = true
      · rw [chatLoop_step_nonCounting opts f now gas attempt calls s e hfc hnc] at h
        simp at h
      · rw [Bool.not_eq_true] at hnc
        by_cases hretry : (decide (attempt < opts.maxRetries) &&
            shouldRetry (classifyError e).1 (some (classifyError e).2) opts) = true
        · rw [chatLoop_step_retry opts f now gas attempt calls s e hfc hnc hretry] at h ⊢
          have hrec := ih (attempt + 1) (calls + 1)
            (recordFailure s now (some (classifyError e).1) (some (classifyError e).2) opts)
            r h
          have h1 := hrec.1
          refine ⟨by omega, hrec.2.1, ?_, hrec.2.2.2⟩
          intro j hj1 hj2
          rcases Nat.eq_or_lt_of_le hj1 with hj | hj
          · refine ⟨e, ?_⟩
            rw [hj] at hfc
            exact hfc
          · exact hrec.2.2.1 j hj hj2
        · rw [Bool.not_eq_true] at hretry
          rw [chatLoop_step_terminal opts f now gas attempt calls s e hfc hnc hretry] at h
          simp at h

/-! ## Remaining claim theorems -/

/-- C1: from the closed initial state, five consecutive `recordFailure`
calls with counting messages make `isCircuitOpen` true, and while the
breaker is open every call to `chatCompletions` or `chatCompletionsStream`
returns the service-unavailable outcome immediately with zero upstream
thunk invocations and the state unchanged. -/
theorem c1_breaker_opens_and_fast_fails {α β : Type} (opts : RetryOptions)
    (inputs : List FailureInput)
    (hlen : inputs.length = 5)
    (hcnt : ∀ x ∈ inputs, nonCountingGuard x.errorMessage opts = false) :
    isCircuitOpen (foldRecordFailure opts cbInitialState inputs) = true ∧
    ∀ (s : CBState), isCircuitOpen s = true →
      ∀ (f : Nat → AttemptOutcome α) (g : Nat → StreamAttempt β) (now now2 : Nat),
        chatCompletions opts f now s = (Except.error CallError.serviceUnavailable, s, 0) ∧
        chatCompletionsStream opts g now2 s =
          (Except.error CallError.serviceUnavailable, s, 0) := by
  constructor
  · exact foldRecordFailure_opens opts inputs cbInitialState hcnt rfl
      (by rw [hlen]; rfl)
      (by intro he; rw [he] at hlen; simp at hlen)
  · intro s hs f g now now2
    constructor <;> simp [chatCompletions, chatCompletionsStream, hs]

/-- C1 witness: the theorem at the concrete run `fiveCountingFailures`,
with constant success thunks that are never invoked. -/
theorem c1_witness :
    isCircuitOpen (foldRecordFailure DEFAULT_RETRY_OPTIONS cbInitialState
      fiveCountingFailures) = true ∧
    chatCompletions (α := Nat) DEFAULT_RETRY_OPTIONS (fun _ => AttemptOutcome.success 0) 7
        (foldRecordFailure DEFAULT_RETRY_OPTIONS cbInitialState fiveCountingFailures) =
      (Except.error CallError.serviceUnavailable,
        foldRecordFailure DEFAULT_RETRY_OPTIONS cbInitialState fiveCountingFailures, 0) ∧
    chatCompletionsStream (α := Nat) DEFAULT_RETRY_OPTIONS (fun _ => StreamAttempt.success 0) 7
        (foldRecordFailure DEFAULT_RETRY_OPTIONS cbInitialState fiveCountingFailures) =
      (Except.error CallError.serviceUnavailable,
        foldRecordFailure DEFAULT_RETRY_OPTIONS cbInitialState fiveCountingFailures, 0) := by
  have h := c1_breaker_opens_and_fast_fails (α := Nat) (β := Nat) DEFAULT_RETRY_OPTIONS
    fiveCountingFailures (by decide) (by decide)
  exact ⟨h.1,
    (h.2 _ h.1 (fun _ => AttemptOutcome.success 0) (fun _ => StreamAttempt.success 0) 7 7).1,
    (h.2 _ h.1 (fun _ => AttemptOutcome.success 0) (fun _ => StreamAttempt.success 0) 7 7).2⟩

/-- C3: with the breaker closed, `chatCompletions` invokes the upstream
thunk at most `maxRetries + 1` times (the invocations being the strictly
sequential indices `0, 1, …`), and whenever it returns a successful
response that response is the one of the first successful invocation —
every earlier invocation failed, the success was the final invocation, and
`recordSuccess` was applied to it (so the counter is 0 afterwards). -/
theorem c3_execute_bound_and_first_success {α : Type} (opts : RetryOptions)
    (f : Nat → AttemptOutcome α) (now : Nat) (s : CBState)
    (hclosed : isCircuitOpen s = false) :
    (chatCompletions opts f now s).2.2 ≤ opts.maxRetries + 1 ∧
    ∀ r, (chatCompletions opts f now s).1 = Except.ok r →
      ∃ i, i < (chatCompletions opts f now s).2.2 ∧
        f i = AttemptOutcome.success r ∧
        (∀ j, j < i → ∃ e, f j = AttemptOutcome.failure e) ∧
        i + 1 = (chatCompletions opts f now s).2.2 ∧
        (∃ t, (chatCompletions opts f now s).2.1 = recordSuccess t) ∧
        (chatCompletions opts f now s).2.1.consecutiveFailures = 0 := by
  have hcc : chatCompletions opts f now s =
      chatCompletionsLoop opts f now (opts.maxRetries + 1) 0 0 s := by
    simp [chatCompletions, hclosed]
  rw [hcc]
  constructor
  · have := chatLoop_calls_upper opts f now (opts.maxRetries + 1) 0 0 s
    omega
  · intro r h
    have hch := chatLoop_ok_characterisation opts f now (opts.maxRetries + 1) 0 0 s r h
    have h1 := hch.1
    refine ⟨(chatCompletionsLoop opts f now (opts.maxRetries + 1) 0 0 s).2.2 - 1,
      by omega, hch.2.1, ?_, by omega, hch.2.2.2, ?_⟩
    · intro j hj
      exact hch.2.2.1 j (Nat.zero_le j) (by omega)
    · obtain ⟨t, ht⟩ := hch.2.2.2
      rw [ht]
      exact (recordSuccess_resets t).1

/-- C3 witness: the theorem applied to a thunk that fails once with a
retryable 503 and then succeeds. -/
theorem c3_witness :
    (chatCompletions DEFAULT_RETRY_OPTIONS
        (fun i => if i = 0 then AttemptOutcome.failure (UpstreamError.fetchError (some 503)
          ("upstream hiccup")) else AttemptOutcome.success 42) 0 cbInitialState).2.2
      ≤ DEFAULT_RETRY_OPTIONS.maxRetries + 1 ∧
    ∃ i, i < (chatCompletions DEFAULT_RETRY_OPTIONS
        (fun i => if i = 0 then AttemptOutcome.failure (UpstreamError.fetchError (some 503)
          ("upstream hiccup")) else AttemptOutcome.success 42) 0 cbInitialState).2.2 ∧
      (fun i => if i = 0 then AttemptOutcome.failure (UpstreamError.fetchError (some 503)
          ("upstream hiccup")) else AttemptOutcome.success 42) i
        = AttemptOutcome.success 42 ∧
      (∀ j, j < i → ∃ e, (fun i => if i = 0 then AttemptOutcome.failure
          (UpstreamError.fetchError (some 503) ("upstream hiccup"))
          else AttemptOutcome.success 42) j = AttemptOutcome.failure e) ∧
      i + 1 = (chatCompletions DEFAULT_RETRY_OPTIONS
        (fun i => if i = 0 then AttemptOutcome.failure (UpstreamError.fetchError (some 503)
          ("upstream hiccup")) else AttemptOutcome.success 42) 0 cbInitialState).2.2 ∧
      (∃ t, (chatCompletions DEFAULT_RETRY_OPTIONS
        (fun i => if i = 0 then AttemptOutcome.failure (UpstreamError.fetchError (some 503)
          ("upstream hiccup")) else AttemptOutcome.success 42) 0 cbInitialState).2.1
        = recordSuccess t) ∧
      (chatCompletions DEFAULT_RETRY_OPTIONS
        (fun i => if i = 0 then AttemptOutcome.failure (UpstreamError.fetchError (some 503)
          ("upstream hiccup")) else AttemptOutcome.success 42) 0
        cbInitialState).2.1.consecutiveFailures = 0 := by
  have h := c3_execute_bound_and_first_success DEFAULT_RETRY_OPTIONS
    (fun i => if i = 0 then AttemptOutcome.failure (UpstreamError.fetchError (some 503)
      ("upstream hiccup")) else AttemptOutcome.success 42) 0 cbInitialState rfl
  exact ⟨h.1, h.2 42 rfl⟩

/-- C7: during any attempt of the retrying executor, a failure whose
extracted message is classified non-counting is propagated immediately as
the call's result: `recordFailure` is not called (the breaker state is
returned exactly as it was), and no further upstream invocation occurs
(the invocation count rises only by the failing attempt itself). -/
theorem c7_noncounting_propagates_immediately {α : Type} (opts : RetryOptions)
    (f : Nat → AttemptOutcome α) (now gas attempt calls : Nat) (s : CBState)
    (e : UpstreamError)
    (hfc : f calls = AttemptOutcome.failure e)
    (hnc : isNonCountingError (classifyError e).2 opts = true) :
    chatCompletionsLoop opts f now (gas + 1) attempt calls s =
      (Except.error (CallError.upstream e), s, calls + 1) :=
  chatLoop_step_nonCounting opts f now gas attempt calls s e hfc hnc

/-- C7 witness: the theorem at attempt 0 for a thunk failing with the
non-counting message "user aborted". -/
theorem c7_witness :
    chatCompletionsLoop (α := Nat) DEFAULT_RETRY_OPTIONS
        (fun _ => AttemptOutcome.failure (UpstreamError.jsError ("user aborted"))) 0
        (DEFAULT_RETRY_OPTIONS.maxRetries + 1 - 1) 0 0 cbInitialState =
      (Except.error (CallError.upstream (UpstreamError.jsError ("user aborted"))),
        cbInitialState, 1) :=
  c7_noncounting_propagates_immediately DEFAULT_RETRY_OPTIONS
    (fun _ => AttemptOutcome.failure (UpstreamError.jsError ("user aborted"))) 0
    (DEFAULT_RETRY_OPTIONS.maxRetries + 1 - 1 - 1) 0 0 cbInitialState
    (UpstreamError.jsError ("user aborted")) rfl (by decide)

/-- C10: an error that is not a `FetchError`, or a `FetchError` without a
status code, is classified with status code 0; under the default policy
`shouldRetry 0` is false for every counting message, so such a failure is
recorded by `recordFailure` exactly once and propagated with no further
upstream invocation. -/
theorem c10_unclassified_status_zero_no_retry {α : Type} (f : Nat → AttemptOutcome α)
    (now gas attempt calls : Nat) (s : CBState) (e : UpstreamError)
    (hfc : f calls = AttemptOutcome.failure e)
    (hshape : (∃ m, e = UpstreamError.jsError m) ∨ (∃ t, e = UpstreamError.otherThrown t) ∨
      (∃ m, e = UpstreamError.fetchError none m))
    (hcnt : isNonCountingError (classifyError e).2 DEFAULT_RETRY_OPTIONS = false) :
    (classifyError e).1 = 0 ∧
    shouldRetry 0 (some (classifyError e).2) DEFAULT_RETRY_OPTIONS = false ∧
    chatCompletionsLoop DEFAULT_RETRY_OPTIONS f now (gas + 1) attempt calls s =
      (Except.error (CallError.upstream e),
        recordFailure s now (some 0) (some (classifyError e).2) DEFAULT_RETRY_OPTIONS,
        calls + 1) := by
  have hc0 : (classifyError e).1 = 0 := by
    rcases hshape with ⟨m, rfl⟩ | ⟨t, rfl⟩ | ⟨m, rfl⟩ <;> rfl
  have hnr : shouldRetry 0 (some (classifyError e).2) DEFAULT_RETRY_OPTIONS = false := by
    have hg : nonCountingGuard (some (classifyError e).2) DEFAULT_RETRY_OPTIONS = false :=
      nonCountingGuard_some_false hcnt
    simp [shouldRetry, hg, DEFAULT_RETRY_OPTIONS]
  refine ⟨hc0, hnr, ?_⟩
  have hterm := chatLoop_step_terminal DEFAULT_RETRY_OPTIONS f now gas attempt calls s e
    hfc hcnt (by rw [hc0, hnr]; simp)
  rw [hterm, hc0]

/-- C10 witness: the theorem for a thunk throwing a plain `Error` with the
counting message "exploded". -/
theorem c10_witness :
    (classifyError (UpstreamError.jsError ("exploded"))).1 = 0 ∧
    shouldRetry 0 (some (classifyError (UpstreamError.jsError ("exploded"))).2)
      DEFAULT_RETRY_OPTIONS = false ∧
    chatCompletionsLoop (α := Nat) DEFAULT_RETRY_OPTIONS
        (fun _ => AttemptOutcome.failure (UpstreamError.jsError ("exploded"))) 3
        (2 + 1) 0 0 cbInitialState =
      (Except.error (CallError.upstream (UpstreamError.jsError ("exploded"))),
        recordFailure cbInitialState 3 (some 0)
          (some (classifyError (UpstreamError.jsError ("exploded"))).2)
          DEFAULT_RETRY_OPTIONS,
        1) :=
  c10_unclassified_status_zero_no_retry
    (fun _ => AttemptOutcome.failure (UpstreamError.jsError ("exploded"))) 3 2 0 0
    cbInitialState (UpstreamError.jsError ("exploded")) rfl
    (Or.inl ⟨("exploded"), rfl⟩) (by decide)

end CopilotApi
